import Mathlib

/-!
Shallow embedding of the interactive state core of the twitch-irc terminal client:
the scrolling model and application core from `src/handlers/app.rs`, and the
filtered-selection list widget from `src/ui/components/following.rs`.

Rust `usize` arithmetic that can underflow is modelled by returning `Option`:
`none` stands for a panic (arithmetic-overflow abort, out-of-bounds `Index::index`,
or an explicit `panic!` call). External collaborators (the fuzzy matcher and the
embedded text-input widget, whose sources are outside the provided tree) are
modelled as function parameters, per the external-interface contracts of the spec.
-/

namespace TwitchIrc

/-- Scroll state from `src/handlers/app.rs`: the `Scrolling` struct with its
offset and inversion flag. -/
structure Scrolling where
  offset : Nat
  inverted : Bool
deriving Repr, DecidableEq

/-- `Scrolling::new`. -/
def Scrolling.new (inverted : Bool) : Scrolling :=
  { offset := 0, inverted := inverted }

/-- `Scrolling::up`: no-op at offset 0; otherwise decrement when inverted,
increment when not. -/
def Scrolling.up (s : Scrolling) : Scrolling :=
  if s.offset > 0 then
    if s.inverted then { s with offset := s.offset - 1 }
    else { s with offset := s.offset + 1 }
  else s

/-- `Scrolling::down`: no-op at offset 0; otherwise increment when inverted,
decrement when not. -/
def Scrolling.down (s : Scrolling) : Scrolling :=
  if s.offset > 0 then
    if s.inverted then { s with offset := s.offset + 1 }
    else { s with offset := s.offset - 1 }
  else s

/-- `Scrolling::jump_to`: sets the offset unconditionally. -/
def Scrolling.jump_to (s : Scrolling) (index : Nat) : Scrolling :=
  { s with offset := index }

/-- `Scrolling::get_offset`. -/
def Scrolling.get_offset (s : Scrolling) : Nat :=
  s.offset

/-- The `App` struct from `src/handlers/app.rs`, restricted to the state the
core operations touch. The message record type `Data` (defined outside the
provided sources) is kept abstract as a type parameter; `messages` models the
`VecDeque<Data>` history and `input_buffer` the `LineBuffer` contents. -/
structure App (Data : Type) where
  messages : List Data
  input_buffer : String
  scrolling : Scrolling

/-- `App::clear_messages`: `self.messages.clear()` followed by
`self.scrolling.jump_to(0)`. -/
def App.clear_messages {Data : Type} (a : App Data) : App Data :=
  { a with messages := [], scrolling := a.scrolling.jump_to 0 }

/-- The key variants of the input `Key` enum that `FollowingWidget::event`
distinguishes; `char`, `backspace` and `tab` stand for the keys that reach the
catch-all arm. -/
inductive Key where
  | esc
  | enter
  | scrollDown
  | scrollUp
  | backspace
  | tab
  | ctrl (c : Char)
  | char (c : Char)
deriving Repr, DecidableEq

/-- The `Event` enum: the widget only reacts to `Event::Input(key)`; `tick`
stands for every non-input event. -/
inductive Event where
  | input (k : Key)
  | tick
deriving Repr, DecidableEq

/-- `TwitchAction::Join`. -/
inductive TwitchAction where
  | join (channel : String)
deriving Repr, DecidableEq

/-- The `TerminalAction` variants produced by `FollowingWidget::event`. -/
inductive TerminalAction where
  | backOneLayer
  | enter (a : TwitchAction)
deriving Repr, DecidableEq

/-- Models Rust `str::to_lowercase` on the channel labels (per-character case
folding). -/
def lowercase (s : String) : String :=
  String.mk (s.data.map Char.toLower)

/-- The `FollowingWidget` struct from `src/ui/components/following.rs`.
`following` holds the `broadcaster_name` of each entry of `FollowingList.data`;
`selected` is the `TableState` selection; `search_input` is the buffer contents
of the embedded `InputWidget`; `config_channel` is the shared
`config.twitch.channel` field the Enter arm writes. -/
structure FollowingWidget where
  focused : Bool
  following : List String
  filtered_following : Option (List String)
  selected : Option Nat
  search_input : String
  config_channel : String
deriving Repr, DecidableEq

/-- `FollowingWidget::new`: `TableState::default().with_selected(Some(0))`, no
filter, a fresh (empty) search input. -/
def FollowingWidget.new (config_channel : String) (following : List String) :
    FollowingWidget :=
  { focused := false
    following := following
    filtered_following := none
    selected := some 0
    search_input := ""
    config_channel := config_channel }

/-- `FollowingWidget::next`. With a current selection the code compares against
`self.following.data.len() - 1`; on an empty list that `usize` subtraction
underflows (a panic), modelled as `none`. -/
def FollowingWidget.next (w : FollowingWidget) : Option FollowingWidget :=
  match w.selected with
  | some i =>
      if w.following.length = 0 then none
      else
        some { w with
          selected := some (if i ≥ w.following.length - 1
            then w.following.length - 1 else i + 1) }
  | none => some { w with selected := some 0 }

/-- `FollowingWidget::previous`:
`self.state.selected().map_or(0, |i| if i == 0 { 0 } else { i - 1 })`. -/
def FollowingWidget.previous (w : FollowingWidget) : FollowingWidget :=
  { w with
    selected := some (match w.selected with
      | some i => if i = 0 then 0 else i - 1
      | none => 0) }

/-- `FollowingWidget::unselect`. -/
def FollowingWidget.unselect (w : FollowingWidget) : FollowingWidget :=
  { w with selected := none }

/-- `FollowingWidget::toggle_focus`. -/
def FollowingWidget.toggle_focus (w : FollowingWidget) : FollowingWidget :=
  { w with focused := !w.focused }

/-- The catch-all arm of `FollowingWidget::event`. Modelled from the spec: the
embedded text-input collaborator (`InputWidget`, outside the provided sources)
consumes the raw event and exposes its buffer contents as a string, so its
`event` method is the transition function `istep` on that buffer. After
forwarding, the arm force-selects row 0 when the current filtered set is
non-empty. -/
def FollowingWidget.eventDefault (istep : String → Event → String)
    (w : FollowingWidget) (event : Event) :
    Option (FollowingWidget × Option TerminalAction) :=
  let w2 := { w with search_input := istep w.search_input event }
  some (match w2.filtered_following with
    | some v => if !v.isEmpty then { w2 with selected := some 0 } else w2
    | none => w2, none)

/-- `FollowingWidget::event`. Returns the updated widget state and the optional
`TerminalAction`; `none` models a panic (the explicit `panic!` on Ctrl('p'), the
underflow in `next`, or an out-of-range `Index::index` in the Enter arm). -/
def FollowingWidget.event (istep : String → Event → String)
    (w : FollowingWidget) (event : Event) :
    Option (FollowingWidget × Option TerminalAction) :=
  match event with
  | Event.input key =>
    match key with
    | Key.esc =>
        if w.selected.isSome then some (w.unselect, none)
        else some (w.toggle_focus, some TerminalAction.backOneLayer)
    | Key.ctrl c =>
        if c = 'p' then none
        else FollowingWidget.eventDefault istep w event
    | Key.scrollDown => w.next.map (fun w2 => (w2, none))
    | Key.scrollUp => some (w.previous, none)
    | Key.enter =>
        match w.selected with
        | none => some (w, none)
        | some i =>
          match w.filtered_following with
          | some v =>
              if v.isEmpty then some (w, none)
              else
                match v[i]? with
                | none => none
                | some name =>
                    some ({ w.toggle_focus.unselect with
                              config_channel := lowercase name },
                          some (TerminalAction.enter
                            (TwitchAction.join (lowercase name))))
          | none =>
              match w.following[i]? with
              | none => none
              | some name =>
                  some ({ w.toggle_focus.unselect with
                            config_channel := lowercase name },
                        some (TerminalAction.enter
                          (TwitchAction.join (lowercase name))))
    | _ => FollowingWidget.eventDefault istep w event
  | Event.tick => some (w, none)

/-- The row-building loop of the filtered branch of `FollowingWidget::draw`:
channels whose fuzzy match yields no indices are skipped (`continue`), the rest
are kept in backing order. The fuzzy collaborator (`FUZZY_FINDER.fuzzy_indices`
composed with `unwrap_or_default`) is the parameter `matcher`, returning the
matched character positions, `[]` meaning no match. -/
def matchedChannels (matcher : String → String → List Nat) (input : String) :
    List String → List String
  | [] => []
  | c :: rest =>
      if (matcher c input).isEmpty then matchedChannels matcher input rest
      else c :: matchedChannels matcher input rest

/-- The state effect and row labels of `FollowingWidget::draw` (rendering
geometry, styles and the render calls are the draw surface's concern): with an
empty input every backing channel becomes a row and `filtered_following` is
reset to `none`; otherwise the matched channels become the rows and
`filtered_following` is set to them. -/
def FollowingWidget.draw (matcher : String → String → List Nat)
    (w : FollowingWidget) : FollowingWidget × List String :=
  let current_input := w.search_input
  if current_input.isEmpty then
    ({ w with filtered_following := none }, w.following)
  else
    let matched := matchedChannels matcher current_input w.following
    ({ w with filtered_following := some matched }, matched)

/-- The bottom "position / total" title string built at the end of
`FollowingWidget::draw`: `self.state.selected().map_or(1, |i| i + 1)` over the
length of `filtered_following` when present, else of the backing list. -/
def FollowingWidget.drawTitle (w : FollowingWidget) : String :=
  toString (match w.selected with | some i => i + 1 | none => 1) ++ " / " ++
    toString (match w.filtered_following with
      | some v => v.length
      | none => w.following.length)

/-- A concrete instantiation of the text-input collaborator (ignores the key),
used to instantiate counterexamples and witnesses. -/
def idInput (s : String) (_e : Event) : String :=
  s

/-- A concrete instantiation of the fuzzy-match collaborator: exact match at
position 0, used to instantiate witnesses. -/
def eqMatcher (c q : String) : List Nat :=
  if c = q then [0] else []

/-- `matchedChannels` is the filter of the backing list by "the matcher yields
some indices". -/
theorem matchedChannels_eq_filter (matcher : String → String → List Nat)
    (input : String) (l : List String) :
    matchedChannels matcher input l
      = l.filter (fun c => !(matcher c input).isEmpty) := by
  induction l with
  | nil => rfl
  | cons c rest ih =>
      by_cases h : (matcher c input).isEmpty <;>
        simp [matchedChannels, h, ih]

/-- Claim C1, evaluation at the failing input: with an empty backing list and
the selection `Some 0` — exactly the state `FollowingWidget::new` produces —
`next` evaluates `self.following.data.len() - 1`, whose `usize` subtraction
underflows (modelled as `none`, a panic), instead of being the guarded no-op
the claim requires. -/
theorem c1_next_on_empty_list_panics :
    (FollowingWidget.new "" []).next = none := rfl

/-- Claim C2, evaluation at the failing input: with an empty backing list
(`n = 0`) and no current selection, `next` selects `Some 0` — an index that
cannot satisfy `selected < n` — instead of keeping the selection `None`
forever as the claimed invariant requires. -/
theorem c2_next_on_empty_list_selects_zero :
    ((FollowingWidget.new "" []).unselect).next
      = some { (FollowingWidget.new "" []).unselect with selected := some 0 } := rfl

/-- Claim C5, counterexample: starting at offset 1 with `inverted = true`,
`up` reaches offset 0 and `down` is then a no-op, so the pair leaves the
offset at 0 rather than restoring the original offset 1. -/
theorem c5_counterexample :
    (({ offset := 1, inverted := true } : Scrolling).up.down.offset = 0) ∧
      ({ offset := 1, inverted := true } : Scrolling).up.down.offset ≠ 1 := by
  decide

/-- Claim C5 as amended: `up` followed by `down` restores the original offset
whenever `inverted = false` (any starting offset, 0 included), and whenever
`inverted = true` with starting offset at least 2; with `inverted = true` at
starting offset exactly 1, the pair ends at offset 0. -/
theorem c5_up_then_down (s : Scrolling) :
    (s.inverted = false → s.up.down.offset = s.offset) ∧
    (s.inverted = true → 2 ≤ s.offset → s.up.down.offset = s.offset) ∧
    (s.inverted = true → s.offset = 1 → s.up.down.offset = 0) := by
  obtain ⟨o, i⟩ := s
  refine ⟨fun hi => ?_, fun hi h2 => ?_, fun hi h1 => ?_⟩ <;>
    subst hi <;>
    simp only [Scrolling.up, Scrolling.down] <;>
    rcases o with _ | _ | o <;> simp_all

/-- Witness for the amended C5 at concrete scroll states: offset 5 non-inverted
round-trips to 5, offset 3 inverted round-trips to 3, offset 1 inverted ends
at 0. -/
theorem c5_up_then_down_witness :
    (({ offset := 5, inverted := false } : Scrolling).up.down.offset = 5) ∧
    (({ offset := 3, inverted := true } : Scrolling).up.down.offset = 3) ∧
    (({ offset := 1, inverted := true } : Scrolling).up.down.offset = 0) :=
  ⟨(c5_up_then_down { offset := 5, inverted := false }).1 rfl,
   (c5_up_then_down { offset := 3, inverted := true }).2.1 rfl (by decide),
   (c5_up_then_down { offset := 1, inverted := true }).2.2 rfl rfl⟩

/-- Claim C6: `clear_messages` leaves the message history empty and the scroll
offset at 0, for every prior application state. -/
theorem c6_clear_messages {Data : Type} (a : App Data) :
    a.clear_messages.messages = [] ∧
      a.clear_messages.scrolling.get_offset = 0 :=
  ⟨rfl, rfl⟩

/-- Claim C8: immediately after `FollowingWidget::new` the selection is
`Some 0`, for every backing list — the empty one included — and never `None`. -/
theorem c8_new_selects_zero (config_channel : String) (following : List String) :
    (FollowingWidget.new config_channel following).selected = some 0 := rfl

/-- Claim C3, counterexample: in the state produced by construction over an
empty backing list (selection `Some 0`, no active filter), Enter falls in the
claim's "otherwise" case, yet the handler panics on
`self.following.data.index(0)` (modelled as `none`) instead of resolving the
item and returning a commit action. -/
theorem c3_counterexample :
    (FollowingWidget.new "" []).event idInput (Event.input Key.enter) = none := rfl

/-- Claim C3 as amended: on Enter — with no selection the handler is a no-op;
with an active filter whose visible set is empty it is a no-op; otherwise,
provided the selected index is in range of the authoritative list, the item is
resolved from the visible set when a filter is active (never by indexing the
unfiltered backing list) and from the backing list otherwise, the label is
lowercased, focus is toggled off, the selection is cleared, the shared channel
field is set, and a commit action carrying the normalized label is returned;
an out-of-range selection makes the indexing panic instead. -/
theorem c3_enter_behaviour (istep : String → Event → String)
    (w : FollowingWidget) :
    (w.selected = none →
        w.event istep (Event.input Key.enter) = some (w, none)) ∧
    (∀ i, w.selected = some i → w.filtered_following = some [] →
        w.event istep (Event.input Key.enter) = some (w, none)) ∧
    (∀ i v name, w.selected = some i → w.filtered_following = some v →
        v[i]? = some name →
        w.event istep (Event.input Key.enter)
          = some ({ w.toggle_focus.unselect with
                      config_channel := lowercase name },
                  some (TerminalAction.enter (TwitchAction.join (lowercase name))))) ∧
    (∀ i name, w.selected = some i → w.filtered_following = none →
        w.following[i]? = some name →
        w.event istep (Event.input Key.enter)
          = some ({ w.toggle_focus.unselect with
                      config_channel := lowercase name },
                  some (TerminalAction.enter (TwitchAction.join (lowercase name))))) := by
  refine ⟨fun h => ?_, fun i hi hf => ?_, fun i v name hi hf hg => ?_,
    fun i name hi hf hg => ?_⟩
  · simp [FollowingWidget.event, h]
  · simp [FollowingWidget.event, hi, hf]
  · have hv : v.isEmpty = false := by
      cases v with
      | nil => simp at hg
      | cons a l => rfl
    simp only [FollowingWidget.event, hi, hf, hv, Bool.false_eq_true, if_false]
    rw [hg]
  · simp only [FollowingWidget.event, hi, hf]
    rw [hg]

/-- Witness for the amended C3: on the one-channel backing list `["Pokimane"]`
with the post-construction selection `Some 0` and no filter, Enter commits the
lowercased label. -/
theorem c3_enter_behaviour_witness :
    (FollowingWidget.new "" ["Pokimane"]).event idInput (Event.input Key.enter)
      = some ({ (FollowingWidget.new "" ["Pokimane"]).toggle_focus.unselect with
                  config_channel := lowercase "Pokimane" },
              some (TerminalAction.enter (TwitchAction.join (lowercase "Pokimane")))) :=
  (c3_enter_behaviour idInput (FollowingWidget.new "" ["Pokimane"])).2.2.2
    0 "Pokimane" rfl rfl rfl

/-- Claim C4, counterexample: Ctrl('p') is none of Escape, ScrollDown, ScrollUp
or Enter, yet the handler does not forward it to the text input — it executes
the deliberate `panic!("Manual panic triggered by user.")` arm (modelled as
`none`), while the claim predicts a panic-free forward. -/
theorem c4_counterexample :
    (FollowingWidget.new "" ["a"]).event idInput (Event.input (Key.ctrl 'p'))
      = none := rfl

/-- Claim C4 as amended: for every key other than Escape, ScrollDown, ScrollUp,
Enter, and Ctrl('p') (a deliberate manual-panic arm), the handler forwards the
key event to the embedded text input and then force-selects index 0 exactly
when the current filtered visible set is present and non-empty; nothing else
changes, no action is returned, and it cannot panic. -/
theorem c4_other_keys (istep : String → Event → String) (w : FollowingWidget)
    (key : Key) (h1 : key ≠ Key.esc) (h2 : key ≠ Key.scrollDown)
    (h3 : key ≠ Key.scrollUp) (h4 : key ≠ Key.enter)
    (h5 : key ≠ Key.ctrl 'p') :
    ∃ w3, w.event istep (Event.input key) = some (w3, none) ∧
      w3.search_input = istep w.search_input (Event.input key) ∧
      w3.selected = (match w.filtered_following with
        | some v => if v.isEmpty then w.selected else some 0
        | none => w.selected) ∧
      w3.following = w.following ∧
      w3.filtered_following = w.filtered_following ∧
      w3.focused = w.focused ∧
      w3.config_channel = w.config_channel := by
  have key2 : ∀ e, ∃ w3, FollowingWidget.eventDefault istep w e
        = some (w3, none) ∧
      w3.search_input = istep w.search_input e ∧
      w3.selected = (match w.filtered_following with
        | some v => if v.isEmpty then w.selected else some 0
        | none => w.selected) ∧
      w3.following = w.following ∧
      w3.filtered_following = w.filtered_following ∧
      w3.focused = w.focused ∧
      w3.config_channel = w.config_channel := by
    intro e
    cases hf : w.filtered_following with
    | none =>
        exact ⟨{ w with search_input := istep w.search_input e },
          by simp [FollowingWidget.eventDefault, hf], rfl, rfl, rfl, hf, rfl, rfl⟩
    | some v =>
        by_cases hv : v.isEmpty
        · exact ⟨{ w with search_input := istep w.search_input e },
            by simp [FollowingWidget.eventDefault, hf, hv], rfl,
            by simp [hv], rfl, hf, rfl, rfl⟩
        · exact ⟨{ w with search_input := istep w.search_input e, selected := some 0 },
            by simp [FollowingWidget.eventDefault, hf, hv], rfl,
            by simp [hv], rfl, hf, rfl, rfl⟩
  cases key with
  | esc => exact absurd rfl h1
  | scrollDown => exact absurd rfl h2
  | scrollUp => exact absurd rfl h3
  | enter => exact absurd rfl h4
  | ctrl c =>
      have hc : c ≠ 'p' := fun h => h5 (by rw [h])
      have he : w.event istep (Event.input (Key.ctrl c))
          = FollowingWidget.eventDefault istep w (Event.input (Key.ctrl c)) := by
        simp only [FollowingWidget.event, if_neg hc]
      rw [he]
      exact key2 (Event.input (Key.ctrl c))
  | backspace => exact key2 (Event.input Key.backspace)
  | tab => exact key2 (Event.input Key.tab)
  | char c => exact key2 (Event.input (Key.char c))

/-- Witness for the amended C4: typing the character key 'x' in the
post-construction state forwards to the text input and, the filter being
inactive, leaves the selection untouched. -/
theorem c4_other_keys_witness :
    ∃ w3, (FollowingWidget.new "" ["a"]).event idInput
        (Event.input (Key.char 'x')) = some (w3, none) ∧
      w3.search_input
        = idInput (FollowingWidget.new "" ["a"]).search_input
            (Event.input (Key.char 'x')) ∧
      w3.selected = (match (FollowingWidget.new "" ["a"]).filtered_following with
        | some v => if v.isEmpty then (FollowingWidget.new "" ["a"]).selected
                    else some 0
        | none => (FollowingWidget.new "" ["a"]).selected) ∧
      w3.following = (FollowingWidget.new "" ["a"]).following ∧
      w3.filtered_following = (FollowingWidget.new "" ["a"]).filtered_following ∧
      w3.focused = (FollowingWidget.new "" ["a"]).focused ∧
      w3.config_channel = (FollowingWidget.new "" ["a"]).config_channel :=
  c4_other_keys idInput (FollowingWidget.new "" ["a"]) (Key.char 'x')
    (by decide) (by decide) (by decide) (by decide) (by decide)

/-- Claim C7: recomputing the filtered view with an empty query yields
`filtered_following = none` and rows showing every backing item in original
order; with a non-empty query exactly the backing items for which the matcher
returns a non-empty position list are emitted, in backing order (the visible
set is a sublist of the backing list); and the recomputation is idempotent:
drawing again from the post-draw state reproduces the same result. -/
theorem c7_filter_recomputation (matcher : String → String → List Nat)
    (w : FollowingWidget) :
    (w.search_input.isEmpty = true →
        (w.draw matcher).1.filtered_following = none ∧
        (w.draw matcher).2 = w.following) ∧
    (w.search_input.isEmpty = false →
        ∃ v, (w.draw matcher).1.filtered_following = some v ∧
          (w.draw matcher).2 = v ∧
          List.Sublist v w.following ∧
          (∀ c, c ∈ v ↔
            c ∈ w.following ∧ (matcher c w.search_input).isEmpty = false)) ∧
    ((w.draw matcher).1.draw matcher = w.draw matcher) := by
  refine ⟨fun h => ?_, fun h => ?_, ?_⟩
  · exact ⟨by simp [FollowingWidget.draw, h], by simp [FollowingWidget.draw, h]⟩
  · refine ⟨matchedChannels matcher w.search_input w.following,
      by simp [FollowingWidget.draw, h], by simp [FollowingWidget.draw, h],
      ?_, ?_⟩
    · rw [matchedChannels_eq_filter]
      exact List.filter_sublist w.following
    · intro c
      rw [matchedChannels_eq_filter]
      simp [List.mem_filter]
  · by_cases h : w.search_input.isEmpty <;>
      simp [FollowingWidget.draw, h]

/-- Witness for C7: with the exact-match collaborator over the backing list
`["a", "b"]` and query `"b"`, drawing yields the visible set `["b"]` with the
claimed properties. -/
theorem c7_filter_recomputation_witness :
    ∃ v, (({ FollowingWidget.new "" ["a", "b"] with
            search_input := "b" }).draw eqMatcher).1.filtered_following
          = some v ∧
      (({ FollowingWidget.new "" ["a", "b"] with
            search_input := "b" }).draw eqMatcher).2 = v ∧
      List.Sublist v ({ FollowingWidget.new "" ["a", "b"] with
            search_input := "b" }).following ∧
      (∀ c, c ∈ v ↔
        c ∈ ({ FollowingWidget.new "" ["a", "b"] with
            search_input := "b" }).following ∧
          (eqMatcher c ({ FollowingWidget.new "" ["a", "b"] with
            search_input := "b" }).search_input).isEmpty = false) :=
  (c7_filter_recomputation eqMatcher
    { FollowingWidget.new "" ["a", "b"] with search_input := "b" }).2.1 rfl

/-- Claim C9: whenever the event handler completes (returns rather than
panicking), it leaves `filtered_following` untouched, for every input event —
the filtered view is reassigned only by `draw`, so the force-select-0 step and
the Enter resolution read the set computed by the most recent draw. -/
theorem c9_event_preserves_filtered (istep : String → Event → String)
    (w : FollowingWidget) (e : Event) (w2 : FollowingWidget)
    (act : Option TerminalAction)
    (h : w.event istep e = some (w2, act)) :
    w2.filtered_following = w.filtered_following := by
  cases e with
  | tick =>
      simp only [FollowingWidget.event, Option.some.injEq, Prod.mk.injEq] at h
      obtain ⟨rfl, -⟩ := h
      rfl
  | input key =>
      cases key <;>
        simp only [FollowingWidget.event, FollowingWidget.eventDefault,
          FollowingWidget.next] at h <;>
        repeat' split at h
      all_goals
        first
          | (simp only [Option.map_some', Option.map_none', Option.some.injEq,
                Prod.mk.injEq] at h
             obtain ⟨rfl, -⟩ := h
             rfl)
          | simp at h

/-- Witness for C9: the ScrollUp event on a freshly constructed widget
completes and preserves the filtered view. -/
theorem c9_event_preserves_filtered_witness :
    ((FollowingWidget.new "" ["a"]).previous).filtered_following
      = (FollowingWidget.new "" ["a"]).filtered_following :=
  c9_event_preserves_filtered idInput (FollowingWidget.new "" ["a"])
    (Event.input Key.scrollUp) (FollowingWidget.new "" ["a"]).previous none rfl

/-- Claim C10: the "position / total" title produced during `draw` shows
`selected + 1` as the position when a selection exists and 1 otherwise, and as
total the filtered visible list's length when a filter is active (non-empty
query), otherwise the backing list's length. -/
theorem c10_draw_title (matcher : String → String → List Nat)
    (w : FollowingWidget) :
    ((w.draw matcher).1).drawTitle
      = toString (match w.selected with | some i => i + 1 | none => 1)
        ++ " / "
        ++ toString (if w.search_input.isEmpty
            then w.following.length
            else (matchedChannels matcher w.search_input w.following).length) := by
  by_cases h : w.search_input.isEmpty <;>
    simp [FollowingWidget.draw, FollowingWidget.drawTitle, h]

end TwitchIrc
